import Mathlib

/-!
Formal model of the puni-patcher repository: two command-line scripts,
`scripts/apply_patches.py` (the importer) and `scripts/export_patches.py`
(the exporter), that wrap the external `git` executable.

Each script is embedded as a pure function from an environment — the
contents of `BASE_COMMIT.txt`, whether the target repository has a `.git`
entry, the exit code the external `git` process would return for each
argument list, the set of `*.patch` files present, and the stdout the
captured git calls would produce — to a trace of observable effects
(prints, spawned git subprocesses, file writes/deletions) together with
the process exit status, and (for the exporter) the resulting state of
the patch-repository files.

Filesystem paths are abstracted to strings; only the pieces of state the
scripts read or write are tracked.
-/

/-- Python `str.strip()` on the character list of a string: drop leading
and trailing whitespace. -/
def pyStripList (l : List Char) : List Char :=
  ((l.dropWhile Char.isWhitespace).reverse.dropWhile Char.isWhitespace).reverse

/-- Python `str.strip()`. -/
def pyStrip (s : String) : String :=
  String.mk (pyStripList s.data)

/-- Does the character list start with the pattern (first argument)? -/
def listStartsWith : List Char → List Char → Bool
  | [], _ => true
  | _ :: _, [] => false
  | p :: ps, c :: cs => (p = c) && listStartsWith ps cs

/-- Does the pattern occur as a contiguous run somewhere in the list? -/
def subOccurs (pat : List Char) : List Char → Bool
  | [] => pat.isEmpty
  | c :: t => listStartsWith pat (c :: t) || subOccurs pat t

/-- Substring test: `pat` occurs somewhere in `s`. -/
def containsSub (s pat : String) : Bool :=
  subOccurs pat.data s.data

/-- Python `sorted` on a list of strings: lexicographic by code point,
which is exactly the lexicographic order on the character lists (and
agrees with Lean's `String` order, `String.le_iff_toList_le`).
`sorted` returns the stable ascending reordering. -/
def pySorted (l : List String) : List String :=
  List.insertionSort (fun a b => a.data ≤ b.data) l

instance : IsTotal String fun a b : String => a.data ≤ b.data :=
  ⟨fun a b => le_total a.data b.data⟩

instance : IsTrans String fun a b : String => a.data ≤ b.data :=
  ⟨fun _ _ _ h₁ h₂ => le_trans h₁ h₂⟩

/-- An observable effect of a script run. `git args` is a spawned
`git` subprocess with the given argument list. -/
inductive Eff where
  | print (s : String)
  | git (args : List String)
  | mkdir (path : String)
  | unlink (path : String)
  | writeFile (path : String) (contents : String)
deriving DecidableEq

/-- Which spawned git commands mutate the repository they run in.
`cat-file`, `rev-parse`, `remote get-url` and `diff` are pure queries;
`checkout`, `clean`, `branch -D`, `am` and `format-patch` (which writes
files, though outside the repo) are not. -/
def readOnlyGit (args : List String) : Bool :=
  match args.head? with
  | some "cat-file" => true
  | some "rev-parse" => true
  | some "remote" => true
  | some "diff" => true
  | _ => false

/-- A line of 60 `=` characters, as produced by `"=" * 60`. -/
def eqLine : String :=
  String.mk (List.replicate 60 '=')

namespace ApplyPatches

/-- Environment of one run of `apply_patches.py`: everything the script
reads from the outside world. `gitExit` gives the exit code of the
external `git` process for each argument list; `patchNames` are the
file names matching `patches/*.patch` (in unspecified glob order). -/
structure Env where
  argvLen : Nat
  edenRepo : String
  patchRepo : String
  patchesDir : String
  baseCommitFile : Option String
  gitDirExists : Bool
  gitExit : List String → Nat
  patchNames : List String

/-- The usage message printed by `sys.exit(...)` when no argument is given. -/
def usageMsg : String :=
  "Usage: python apply_patches.py <path-to-eden-repo>\n\nExample:\n  python apply_patches.py ../eden\n  python apply_patches.py C:\\path\\to\\eden"

/-- `run_git`: echo the command line, spawn git, and with `check` treat a
non-zero exit code as fatal. Returns (effects, returncode, fatal exit
status): in the source the fatal branch prints
`Command failed with exit code {rc}` and calls `sys.exit(1)`, so the
fatal exit status is always `some 1`. -/
def run_git (gitExit : List String → Nat) (args : List String) (check : Bool) :
    List Eff × Nat × Option Nat :=
  let rc := gitExit args
  let effs := [Eff.print ("  > " ++ String.intercalate " " ("git" :: args)), Eff.git args]
  if check ∧ rc ≠ 0 then
    (effs ++ [Eff.print ("Command failed with exit code " ++ toString rc)], rc, some 1)
  else
    (effs, rc, none)

/-- `load_base_commit`: read and validate `BASE_COMMIT.txt`
(`none` = the file does not exist). `Except.error msg` models
`sys.exit(msg)`: the message is printed and the process exits with
status 1. -/
def load_base_commit (fileContents : Option String) : Except String String :=
  match fileContents with
  | none => Except.error "Error: BASE_COMMIT.txt not found!"
  | some raw =>
    let commit := pyStrip raw
    if commit = "" ∨ commit.length < 7 then
      Except.error "Error: BASE_COMMIT.txt is empty or invalid!"
    else
      Except.ok commit

/-- Message for a target path with no `.git` entry. -/
def notGitRepoMsg (edenRepo : String) : String :=
  "Error: \x27" ++ edenRepo ++ "\x27 is not a git repository!\n\nUsage:\n  python apply_patches.py <path-to-eden-repo>"

/-- Message when the expected commit is not in the repository. -/
def commitNotFoundMsg (expected : String) : String :=
  "Error: Commit " ++ expected.take 12 ++ " not found in repository.\n  Try running \x27git fetch\x27 in your eden repo to update."

/-- `validate_eden_repo`: check the `.git` entry exists, then query
`git cat-file -t <expected>` (captured, `check=False`); a non-zero exit
is fatal with a fetch hint. Result: (effects, fatal exit status). -/
def validate_eden_repo (env : Env) (expected : String) : List Eff × Option Nat :=
  if env.gitDirExists = false then
    ([Eff.print (notGitRepoMsg env.edenRepo)], some 1)
  else
    let r := run_git env.gitExit ["cat-file", "-t", expected] false
    if r.2.1 ≠ 0 then
      (r.1 ++ [Eff.print (commitNotFoundMsg expected)], some 1)
    else
      (r.1, none)

/-- The banner printed when `git am` fails, with the abort-and-reset and
resolve-and-continue hints, before `sys.exit(1)`. -/
def failBanner (edenRepo : String) : List Eff :=
  [Eff.print ("\n" ++ eqLine),
   Eff.print "ERROR: Patch application failed!",
   Eff.print eqLine,
   Eff.print ("To abort and reset: cd " ++ edenRepo ++ " && git am --abort"),
   Eff.print "To resolve manually: fix conflicts, git add, git am --continue"]

/-- The banner printed when all patches applied. -/
def successBanner (edenRepo : String) : List Eff :=
  [Eff.print ("\n" ++ eqLine),
   Eff.print "SUCCESS! All patches applied.",
   Eff.print eqLine,
   Eff.print ("Source is ready in: " ++ edenRepo),
   Eff.print "You can now build following standard eden instructions."]

/-- One call of `main()` in `apply_patches.py`, straight-line translation
of the four numbered steps. Result: (effect trace, exit status); status 0
means `main` returned normally. -/
def main (env : Env) : List Eff × Nat :=
  if env.argvLen < 2 then
    ([Eff.print usageMsg], 1)
  else
    let t0 : List Eff :=
      [Eff.print ("Eden repo:   " ++ env.edenRepo),
       Eff.print ("Patch repo:  " ++ env.patchRepo),
       Eff.print "",
       Eff.print "[1/4] Loading BASE_COMMIT.txt..."]
    match load_base_commit env.baseCommitFile with
    | Except.error msg => (t0 ++ [Eff.print msg], 1)
    | Except.ok expected =>
      let t1 := t0 ++ [Eff.print ("  Expected commit: " ++ expected.take 12 ++ "...")]
      match validate_eden_repo env expected with
      | (tv, some code) => (t1 ++ tv, code)
      | (tv, none) =>
        let t2 := t1 ++ tv ++ [Eff.print "[2/4] Checking out base commit..."]
        match run_git env.gitExit ["checkout", "-f", expected] true with
        | (tc, _, some code) => (t2 ++ tc, code)
        | (tc, _, none) =>
          let t3 := t2 ++ tc
          match run_git env.gitExit ["clean", "-fdx"] true with
          | (tl, _, some code) => (t3 ++ tl, code)
          | (tl, _, none) =>
            let t4 := t3 ++ tl ++
              [Eff.print "[3/4] Creating patched-release branch...",
               Eff.git ["branch", "-D", "patched-release"]]
            match run_git env.gitExit ["checkout", "-b", "patched-release"] true with
            | (tb, _, some code) => (t4 ++ tb, code)
            | (tb, _, none) =>
              let t5 := t4 ++ tb ++ [Eff.print "[4/4] Applying patches..."]
              let patchFiles := (pySorted env.patchNames).map
                (fun n => env.patchesDir ++ "/" ++ n)
              if patchFiles = [] then
                (t5 ++ [Eff.print "  No patches found in patches/ directory.",
                        Eff.print "Done! (No patches to apply)"], 0)
              else
                let t6 := t5 ++
                  [Eff.print ("  Found " ++ toString patchFiles.length ++ " patch(es)")]
                let amArgs := "am" :: "--3way" :: patchFiles
                let t7 := t6 ++ [Eff.git amArgs]
                if env.gitExit amArgs ≠ 0 then
                  (t7 ++ failBanner env.edenRepo, 1)
                else
                  (t7 ++ successBanner env.edenRepo, 0)

/-- The whole process: the module ends with two identical
`if __name__ == "__main__": main()` blocks, so when the first `main()`
returns normally (exit status 0) `main()` runs a second time; a
`sys.exit` in the first call ends the process immediately. -/
def process (env : Env) : List Eff × Nat :=
  let r := main env
  if r.2 = 0 then
    let r2 := main env
    (r.1 ++ r2.1, r2.2)
  else
    r

/-- The full path strings passed to `git am`, in `sorted(...)` order. -/
def patchPaths (env : Env) : List String :=
  (pySorted env.patchNames).map (fun n => env.patchesDir ++ "/" ++ n)

/-- The argument list of the single `git am` invocation. -/
def amArgs (env : Env) : List String :=
  "am" :: "--3way" :: patchPaths env

/-- The trace of effects common to every run that reaches step 4: both
validation queries pass and the checkout / clean / branch commands
succeed. -/
def happyPrefix (env : Env) (c : String) : List Eff :=
  [Eff.print ("Eden repo:   " ++ env.edenRepo),
   Eff.print ("Patch repo:  " ++ env.patchRepo),
   Eff.print "",
   Eff.print "[1/4] Loading BASE_COMMIT.txt...",
   Eff.print ("  Expected commit: " ++ c.take 12 ++ "..."),
   Eff.print ("  > " ++ String.intercalate " " ("git" :: ["cat-file", "-t", c])),
   Eff.git ["cat-file", "-t", c],
   Eff.print "[2/4] Checking out base commit...",
   Eff.print ("  > " ++ String.intercalate " " ("git" :: ["checkout", "-f", c])),
   Eff.git ["checkout", "-f", c],
   Eff.print ("  > " ++ String.intercalate " " ("git" :: ["clean", "-fdx"])),
   Eff.git ["clean", "-fdx"],
   Eff.print "[3/4] Creating patched-release branch...",
   Eff.git ["branch", "-D", "patched-release"],
   Eff.print ("  > " ++ String.intercalate " " ("git" :: ["checkout", "-b", "patched-release"])),
   Eff.git ["checkout", "-b", "patched-release"],
   Eff.print "[4/4] Applying patches..."]

/-- The step-4 effects: either the no-patches report, or the count line,
the single `git am` batch, and the failure or success banner. -/
def step4Tail (env : Env) : List Eff :=
  if patchPaths env = [] then
    [Eff.print "  No patches found in patches/ directory.",
     Eff.print "Done! (No patches to apply)"]
  else
    [Eff.print ("  Found " ++ toString (patchPaths env).length ++ " patch(es)"),
     Eff.git (amArgs env)] ++
      (if env.gitExit (amArgs env) ≠ 0 then failBanner env.edenRepo
       else successBanner env.edenRepo)

/-- The step-4 exit status. -/
def step4Exit (env : Env) : Nat :=
  if patchPaths env = [] then 0
  else if env.gitExit (amArgs env) ≠ 0 then 1 else 0

/-- `run_git` on a command whose exit code is 0 just echoes and spawns. -/
theorem run_git_ok (gitExit : List String → Nat) (args : List String) (check : Bool)
    (h : gitExit args = 0) :
    run_git gitExit args check =
      ([Eff.print ("  > " ++ String.intercalate " " ("git" :: args)), Eff.git args],
       0, none) := by
  simp [run_git, h]

/-- Characterization of `main` on a run that reaches step 4. -/
theorem apply_main_happy (env : Env) (c : String)
    (hargv : 2 ≤ env.argvLen)
    (hload : load_base_commit env.baseCommitFile = Except.ok c)
    (hdir : env.gitDirExists = true)
    (hcat : env.gitExit ["cat-file", "-t", c] = 0)
    (hchk : env.gitExit ["checkout", "-f", c] = 0)
    (hcln : env.gitExit ["clean", "-fdx"] = 0)
    (hbr : env.gitExit ["checkout", "-b", "patched-release"] = 0) :
    main env = (happyPrefix env c ++ step4Tail env, step4Exit env) := by
  have hv : validate_eden_repo env c =
      ([Eff.print ("  > " ++ String.intercalate " " ("git" :: ["cat-file", "-t", c])),
        Eff.git ["cat-file", "-t", c]], none) := by
    simp [validate_eden_repo, hdir, run_git, hcat]
  unfold main
  rw [if_neg (by omega), hload]
  simp only [hv, run_git_ok env.gitExit ["checkout", "-f", c] true hchk,
    run_git_ok env.gitExit ["clean", "-fdx"] true hcln,
    run_git_ok env.gitExit ["checkout", "-b", "patched-release"] true hbr,
    happyPrefix, step4Tail, step4Exit, amArgs, patchPaths]
  by_cases hp : (pySorted env.patchNames).map (fun n => env.patchesDir ++ "/" ++ n) = []
  · simp [hp]
  · by_cases ham :
      env.gitExit ("am" :: "--3way" ::
        (pySorted env.patchNames).map (fun n => env.patchesDir ++ "/" ++ n)) ≠ 0
    · simp [hp, ham]
    · simp [hp, ham]

end ApplyPatches

namespace ExportPatches

/-- `UPSTREAM_REMOTE` constant from `export_patches.py`. -/
def UPSTREAM_REMOTE : String := "gitlab"

/-- `UPSTREAM_BRANCH` constant from `export_patches.py`. -/
def UPSTREAM_BRANCH : String := "master"

/-- The `gitlab/master` reference. -/
def upstreamRef : String := UPSTREAM_REMOTE ++ "/" ++ UPSTREAM_BRANCH

/-- The `gitlab/master..HEAD` commit range. -/
def diffRange : String := upstreamRef ++ "..HEAD"

/-- The state of the patch-repository files the exporter writes:
the names of `patches/*.patch` files, and the contents (when the file
exists) of `patches/series`, `preview.diff` and `BASE_COMMIT.txt`. -/
structure PatchRepoFS where
  patchFiles : List String
  series : Option String
  preview : Option String
  baseCommit : Option String
deriving DecidableEq

/-- Environment of one run of `export_patches.py`. The three oracle
fields describe what the external git calls produce: `revParseOut` the
captured stdout of `git rev-parse gitlab/master`, `formatPatchProduces`
the names of the patch files `git format-patch` writes into the patches
directory, `diffOut` the stdout of `git diff gitlab/master..HEAD`. -/
structure Env where
  edenRepo : String
  patchRepo : String
  patchesDir : String
  gitDirExists : Bool
  gitExit : List String → Nat
  revParseOut : String
  formatPatchProduces : List String
  diffOut : String

/-- `run_git` of `export_patches.py`: identical to the importer's except
that the fatal branch is `sys.exit(f"Command failed with exit code {rc}")`,
which also prints the message and exits with status 1. -/
def run_git (gitExit : List String → Nat) (args : List String) (check : Bool) :
    List Eff × Nat × Option Nat :=
  let rc := gitExit args
  let effs := [Eff.print ("  > " ++ String.intercalate " " ("git" :: args)), Eff.git args]
  if check ∧ rc ≠ 0 then
    (effs ++ [Eff.print ("Command failed with exit code " ++ toString rc)], rc, some 1)
  else
    (effs, rc, none)

/-- Message for a fork path with no `.git` entry. -/
def notGitRepoMsg (edenRepo : String) : String :=
  "Error: \x27" ++ edenRepo ++ "\x27 is not a git repository!\n\nUsage:\n  python export_patches.py [path-to-eden-repo]\n  python export_patches.py  # uses current directory"

/-- Message when the `gitlab` remote is missing. -/
def noRemoteMsg : String :=
  "Error: No \x27" ++ UPSTREAM_REMOTE ++ "\x27 remote found in eden repo.\n  Add a remote named \x27" ++ UPSTREAM_REMOTE ++ "\x27 pointing to your upstream."

/-- `validate_eden_repo`: check the `.git` entry, then
`git remote get-url gitlab` (captured, `check=False`); non-zero exit is
fatal with a remediation hint. Result: (effects, fatal exit status). -/
def validate_eden_repo (env : Env) : List Eff × Option Nat :=
  if env.gitDirExists = false then
    ([Eff.print (notGitRepoMsg env.edenRepo)], some 1)
  else
    let r := run_git env.gitExit ["remote", "get-url", UPSTREAM_REMOTE] false
    if r.2.1 ≠ 0 then
      (r.1 ++ [Eff.print noRemoteMsg], some 1)
    else
      (r.1, none)

/-- `clean_old_patches`: create the patches directory if absent, then
unlink every existing `*.patch` file (printing each name). -/
def clean_old_patches (env : Env) (fs : PatchRepoFS) : List Eff × PatchRepoFS :=
  let effs := [Eff.print "[1/5] Cleaning old patches...", Eff.mkdir env.patchesDir] ++
    fs.patchFiles.flatMap
      (fun f => [Eff.unlink (env.patchesDir ++ "/" ++ f), Eff.print ("  Removed: " ++ f)])
  let effs := if fs.patchFiles = [] then effs ++ [Eff.print "  (No old patches to remove)"]
    else effs
  (effs, { fs with patchFiles := [] })

/-- The argument list of the `git format-patch` invocation. -/
def formatPatchArgs (env : Env) : List String :=
  ["format-patch", "--no-numbered", "--no-signature", "--start-number", "1",
   "-o", env.patchesDir, diffRange]

/-- `generate_patches`: run `git format-patch` (fatal on failure); on
success the patch files the tool produced appear in the directory.
Result: (effects, new state, fatal exit status). -/
def generate_patches (env : Env) (fs : PatchRepoFS) :
    List Eff × PatchRepoFS × Option Nat :=
  let hdr := [Eff.print "[2/5] Generating patches (git format-patch)..."]
  match run_git env.gitExit (formatPatchArgs env) true with
  | (effs, _, some code) => (hdr ++ effs, fs, some code)
  | (effs, _, none) =>
    (hdr ++ effs, { fs with patchFiles := fs.patchFiles ++ env.formatPatchProduces }, none)

/-- `generate_preview_diff`: truncate `preview.diff` and run
`git diff gitlab/master..HEAD` with stdout redirected into it (no echo
line, no check); the file ends up holding exactly the diff output. -/
def generate_preview_diff (env : Env) (fs : PatchRepoFS) : List Eff × PatchRepoFS :=
  ([Eff.print "[3/5] Generating preview.diff...",
    Eff.git ["diff", diffRange],
    Eff.writeFile (env.patchRepo ++ "/preview.diff") env.diffOut,
    Eff.print ("  Written: " ++ env.patchRepo ++ "/preview.diff")],
   { fs with preview := some env.diffOut })

/-- `generate_series_file`: sort the `*.patch` names and write them, one
per line, to `patches/series`. Returns the sorted name list as well. -/
def generate_series_file (env : Env) (fs : PatchRepoFS) :
    List Eff × PatchRepoFS × List String :=
  let names := pySorted fs.patchFiles
  let contents := String.join (names.map (fun n => n ++ "\n"))
  ([Eff.print "[4/5] Generating patches/series...",
    Eff.writeFile (env.patchesDir ++ "/series") contents,
    Eff.print ("  Written: " ++ env.patchesDir ++ "/series (" ++
      toString names.length ++ " patches)")],
   { fs with series := some contents }, names)

/-- `update_base_commit`: `git rev-parse gitlab/master` (captured,
`check=False`); on non-zero exit print a warning and return with the
file untouched, otherwise overwrite `BASE_COMMIT.txt` with the stripped
hash plus a newline. -/
def update_base_commit (env : Env) (fs : PatchRepoFS) : List Eff × PatchRepoFS :=
  let hdr := [Eff.print "[5/5] Updating BASE_COMMIT.txt..."]
  let r := run_git env.gitExit ["rev-parse", upstreamRef] false
  if r.2.1 ≠ 0 then
    (hdr ++ r.1 ++ [Eff.print "  Warning: Could not get upstream commit hash"], fs)
  else
    let newCommit := pyStrip env.revParseOut
    (hdr ++ r.1 ++
      [Eff.writeFile (env.patchRepo ++ "/BASE_COMMIT.txt") (newCommit ++ "\n"),
       Eff.print ("  Updated commit: " ++ newCommit)],
     { fs with baseCommit := some (newCommit ++ "\n") })

/-- `print_done` banner. -/
def doneBanner (env : Env) (patchCount : Nat) : List Eff :=
  [Eff.print "",
   Eff.print eqLine,
   Eff.print "DONE!",
   Eff.print eqLine,
   Eff.print ("  Patches exported: " ++ toString patchCount),
   Eff.print ("  Location: " ++ env.patchesDir),
   Eff.print "",
   Eff.print "Next steps:",
   Eff.print "  1. Review the generated patches",
   Eff.print "  2. Commit and push to puni-patcher repo"]

/-- One run of `main()` in `export_patches.py` (the module calls it
once): validate, clean, format-patch, preview diff, series, base commit,
done banner. Result: (effect trace, exit status, final file state). -/
def main (env : Env) (fs : PatchRepoFS) : List Eff × Nat × PatchRepoFS :=
  let t0 : List Eff :=
    [Eff.print ("Eden repo:   " ++ env.edenRepo),
     Eff.print ("Patch repo:  " ++ env.patchRepo),
     Eff.print ""]
  match validate_eden_repo env with
  | (tv, some code) => (t0 ++ tv, code, fs)
  | (tv, none) =>
    let t1 := t0 ++ tv
    let (tc, fs1) := clean_old_patches env fs
    match generate_patches env fs1 with
    | (tg, fs2, some code) => (t1 ++ tc ++ tg, code, fs2)
    | (tg, fs2, none) =>
      let (tp, fs3) := generate_preview_diff env fs2
      let (ts, fs4, patchFiles) := generate_series_file env fs3
      let (tu, fs5) := update_base_commit env fs4
      (t1 ++ tc ++ tg ++ tp ++ ts ++ tu ++ doneBanner env patchFiles.length, 0, fs5)

/-- Trace prefix of a run whose validation passes: banner prints, the
`remote get-url` query, and the step-1 header. -/
def preTrace (env : Env) : List Eff :=
  [Eff.print ("Eden repo:   " ++ env.edenRepo),
   Eff.print ("Patch repo:  " ++ env.patchRepo),
   Eff.print "",
   Eff.print ("  > " ++ String.intercalate " " ("git" :: ["remote", "get-url", UPSTREAM_REMOTE])),
   Eff.git ["remote", "get-url", UPSTREAM_REMOTE],
   Eff.print "[1/5] Cleaning old patches..."]

/-- The unlink/print pairs (plus the no-old-patches note) of step 1,
after the `mkdir`. -/
def cleanTrace (env : Env) (fs : PatchRepoFS) : List Eff :=
  fs.patchFiles.flatMap
    (fun f => [Eff.unlink (env.patchesDir ++ "/" ++ f), Eff.print ("  Removed: " ++ f)]) ++
  (if fs.patchFiles = [] then [Eff.print "  (No old patches to remove)"] else [])

/-- The contents written to `patches/series` on a happy run (the patch
files present then are exactly the ones `format-patch` produced). -/
def seriesContents (env : Env) : String :=
  String.join ((pySorted env.formatPatchProduces).map (fun n => n ++ "\n"))

/-- The step-5 effects: the `rev-parse` query, then either the warning
or the `BASE_COMMIT.txt` write. -/
def updTrace (env : Env) : List Eff :=
  [Eff.print "[5/5] Updating BASE_COMMIT.txt...",
   Eff.print ("  > " ++ String.intercalate " " ("git" :: ["rev-parse", upstreamRef])),
   Eff.git ["rev-parse", upstreamRef]] ++
  (if env.gitExit ["rev-parse", upstreamRef] ≠ 0 then
     [Eff.print "  Warning: Could not get upstream commit hash"]
   else
     [Eff.writeFile (env.patchRepo ++ "/BASE_COMMIT.txt") (pyStrip env.revParseOut ++ "\n"),
      Eff.print ("  Updated commit: " ++ pyStrip env.revParseOut)])

/-- The effects of steps 3–5 plus the done banner on a happy run. -/
def postTrace (env : Env) : List Eff :=
  [Eff.print "[3/5] Generating preview.diff...",
   Eff.git ["diff", diffRange],
   Eff.writeFile (env.patchRepo ++ "/preview.diff") env.diffOut,
   Eff.print ("  Written: " ++ env.patchRepo ++ "/preview.diff"),
   Eff.print "[4/5] Generating patches/series...",
   Eff.writeFile (env.patchesDir ++ "/series") (seriesContents env),
   Eff.print ("  Written: " ++ env.patchesDir ++ "/series (" ++
     toString (pySorted env.formatPatchProduces).length ++ " patches)")] ++
  updTrace env ++ doneBanner env (pySorted env.formatPatchProduces).length

/-- The patch-repository state after a happy run: the three regenerated
artifacts depend only on the environment; `BASE_COMMIT.txt` keeps its
prior contents exactly when `rev-parse` fails. -/
def finalFS (env : Env) (fs : PatchRepoFS) : PatchRepoFS where
  patchFiles := env.formatPatchProduces
  series := some (seriesContents env)
  preview := some env.diffOut
  baseCommit :=
    if env.gitExit ["rev-parse", upstreamRef] ≠ 0 then fs.baseCommit
    else some (pyStrip env.revParseOut ++ "\n")

/-- Characterization of the exporter's `main` on a run whose validation
passes and whose `format-patch` succeeds (the captured queries and the
unchecked `diff` cannot abort the run). -/
theorem export_main_happy (env : Env) (fs : PatchRepoFS)
    (hdir : env.gitDirExists = true)
    (hrem : env.gitExit ["remote", "get-url", UPSTREAM_REMOTE] = 0)
    (hfp : env.gitExit (formatPatchArgs env) = 0) :
    main env fs =
      (preTrace env ++ Eff.mkdir env.patchesDir ::
        (cleanTrace env fs ++
          [Eff.print "[2/5] Generating patches (git format-patch)...",
           Eff.print ("  > " ++ String.intercalate " " ("git" :: formatPatchArgs env))] ++
          Eff.git (formatPatchArgs env) :: postTrace env),
       0, finalFS env fs) := by
  have hv : validate_eden_repo env =
      ([Eff.print ("  > " ++ String.intercalate " " ("git" :: ["remote", "get-url", UPSTREAM_REMOTE])),
        Eff.git ["remote", "get-url", UPSTREAM_REMOTE]], none) := by
    simp [validate_eden_repo, hdir, run_git, hrem]
  have hg : run_git env.gitExit (formatPatchArgs env) true =
      ([Eff.print ("  > " ++ String.intercalate " " ("git" :: formatPatchArgs env)),
        Eff.git (formatPatchArgs env)], 0, none) := by
    simp [run_git, hfp]
  have hrg : run_git env.gitExit ["rev-parse", upstreamRef] false =
      ([Eff.print ("  > " ++ String.intercalate " " ("git" :: ["rev-parse", upstreamRef])),
        Eff.git ["rev-parse", upstreamRef]],
       env.gitExit ["rev-parse", upstreamRef], none) := by
    simp [run_git]
  unfold main
  simp only [hv, clean_old_patches, generate_patches, hg, generate_preview_diff,
    generate_series_file, update_base_commit, hrg, preTrace, cleanTrace, postTrace,
    updTrace, finalFS, seriesContents, pySorted, List.nil_append]
  by_cases hrp : env.gitExit ["rev-parse", upstreamRef] = 0
  · by_cases hold : fs.patchFiles = []
    · simp [hrp, hold]
    · simp [hrp, hold]
  · by_cases hold : fs.patchFiles = []
    · simp [hrp, hold]
    · simp [hrp, hold]

end ExportPatches

/-- C1: whenever `BASE_COMMIT.txt` is absent, empty after trimming, or its
trimmed contents are shorter than 7 characters, the importer process exits
with status 1, its whole trace consists of prints only (in particular no
repository-mutating git command is spawned), and when the file exists (for
instance the 6-character case) the diagnostic printed contains "invalid". -/
theorem C1_invalid_base_commit_fails_before_git (env : ApplyPatches.Env)
    (hargv : 2 ≤ env.argvLen)
    (hbad : env.baseCommitFile = none ∨
      ∃ raw, env.baseCommitFile = some raw ∧ (pyStrip raw).length < 7) :
    (ApplyPatches.process env).2 = 1 ∧
    (∀ e ∈ (ApplyPatches.process env).1, ∃ s, e = Eff.print s) ∧
    (∀ raw, env.baseCommitFile = some raw →
      ∃ s, Eff.print s ∈ (ApplyPatches.process env).1 ∧ containsSub s "invalid" = true) := by
  obtain ⟨msg, hmsg, hinv⟩ :
      ∃ msg, ApplyPatches.load_base_commit env.baseCommitFile = Except.error msg ∧
        (env.baseCommitFile = none ∨ msg = "Error: BASE_COMMIT.txt is empty or invalid!") := by
    rcases hbad with h | ⟨raw, hraw, hlen⟩
    · exact ⟨"Error: BASE_COMMIT.txt not found!",
        by simp [ApplyPatches.load_base_commit, h], Or.inl h⟩
    · refine ⟨_, ?_, Or.inr rfl⟩
      simp only [ApplyPatches.load_base_commit, hraw]
      rw [if_pos (Or.inr hlen)]
  have hmain : ApplyPatches.main env =
      ([Eff.print ("Eden repo:   " ++ env.edenRepo),
        Eff.print ("Patch repo:  " ++ env.patchRepo),
        Eff.print "",
        Eff.print "[1/4] Loading BASE_COMMIT.txt..."] ++ [Eff.print msg], 1) := by
    unfold ApplyPatches.main
    rw [if_neg (by omega), hmsg]
  have hproc : ApplyPatches.process env = ApplyPatches.main env := by
    unfold ApplyPatches.process
    rw [hmain]
    simp
  rw [hproc, hmain]
  refine ⟨rfl, ?_, ?_⟩
  · intro e he
    fin_cases he <;> exact ⟨_, rfl⟩
  · intro raw hraw
    rcases hinv with h | h
    · rw [h] at hraw; cases hraw
    · exact ⟨msg, by simp, by rw [h]; decide⟩

/-- Concrete instance for C1: a six-character `BASE_COMMIT.txt`. -/
def envC1 : ApplyPatches.Env where
  argvLen := 2
  edenRepo := "/eden"
  patchRepo := "/patchrepo"
  patchesDir := "/patchrepo/patches"
  baseCommitFile := some "abc123"
  gitDirExists := true
  gitExit := fun _ => 0
  patchNames := []

/-- C1 witness: with `BASE_COMMIT.txt` containing the 6-character string
`abc123`, the importer exits with status 1 and prints a diagnostic
containing "invalid". -/
theorem C1_witness :
    2 ≤ envC1.argvLen ∧ (pyStrip "abc123").length < 7 ∧
    (ApplyPatches.process envC1).2 = 1 ∧
    (∃ s, Eff.print s ∈ (ApplyPatches.process envC1).1 ∧
      containsSub s "invalid" = true) := by
  have h := C1_invalid_base_commit_fails_before_git envC1 (by decide)
    (Or.inr ⟨"abc123", rfl, by decide⟩)
  exact ⟨by decide, by decide, h.1, h.2.2 "abc123" rfl⟩

/-- C4: for a target/fork path whose directory has no `.git` entry, both
the importer and the exporter exit with status 1, print a human-readable
"is not a git repository" message, and never spawn a git subprocess. -/
theorem C4_missing_git_dir_fails_fast (envI : ApplyPatches.Env)
    (envE : ExportPatches.Env) (fs : ExportPatches.PatchRepoFS)
    (hargv : 2 ≤ envI.argvLen)
    (hload : ∃ c, ApplyPatches.load_base_commit envI.baseCommitFile = Except.ok c)
    (hIg : envI.gitDirExists = false) (hEg : envE.gitDirExists = false) :
    (ApplyPatches.process envI).2 = 1 ∧
    (∀ args, Eff.git args ∉ (ApplyPatches.process envI).1) ∧
    Eff.print (ApplyPatches.notGitRepoMsg envI.edenRepo) ∈ (ApplyPatches.process envI).1 ∧
    (ExportPatches.main envE fs).2.1 = 1 ∧
    (∀ args, Eff.git args ∉ (ExportPatches.main envE fs).1) ∧
    Eff.print (ExportPatches.notGitRepoMsg envE.edenRepo) ∈ (ExportPatches.main envE fs).1 := by
  obtain ⟨c, hc⟩ := hload
  have hmain : ApplyPatches.main envI =
      ([Eff.print ("Eden repo:   " ++ envI.edenRepo),
        Eff.print ("Patch repo:  " ++ envI.patchRepo),
        Eff.print "",
        Eff.print "[1/4] Loading BASE_COMMIT.txt...",
        Eff.print ("  Expected commit: " ++ c.take 12 ++ "..."),
        Eff.print (ApplyPatches.notGitRepoMsg envI.edenRepo)], 1) := by
    unfold ApplyPatches.main
    rw [if_neg (by omega), hc]
    simp [ApplyPatches.validate_eden_repo, hIg]
  have hproc : ApplyPatches.process envI = ApplyPatches.main envI := by
    unfold ApplyPatches.process
    rw [hmain]
    simp
  have hexp : ExportPatches.main envE fs =
      ([Eff.print ("Eden repo:   " ++ envE.edenRepo),
        Eff.print ("Patch repo:  " ++ envE.patchRepo),
        Eff.print "",
        Eff.print (ExportPatches.notGitRepoMsg envE.edenRepo)], 1, fs) := by
    unfold ExportPatches.main
    simp [ExportPatches.validate_eden_repo, hEg]
  rw [hproc, hmain, hexp]
  refine ⟨rfl, ?_, by simp, rfl, ?_, by simp⟩
  · intro args h
    simp at h
  · intro args h
    simp at h

/-- Concrete instance for C4, importer side: no `.git` entry. -/
def envC4I : ApplyPatches.Env where
  argvLen := 2
  edenRepo := "/eden"
  patchRepo := "/patchrepo"
  patchesDir := "/patchrepo/patches"
  baseCommitFile := some "0123456789abcdef\n"
  gitDirExists := false
  gitExit := fun _ => 0
  patchNames := []

/-- Concrete instance for C4, exporter side: no `.git` entry. -/
def envC4E : ExportPatches.Env where
  edenRepo := "/eden"
  patchRepo := "/patchrepo"
  patchesDir := "/patchrepo/patches"
  gitDirExists := false
  gitExit := fun _ => 0
  revParseOut := ""
  formatPatchProduces := []
  diffOut := ""

/-- Empty patch-repository state used by several concrete instances. -/
def fsEmpty : ExportPatches.PatchRepoFS where
  patchFiles := []
  series := none
  preview := none
  baseCommit := none

/-- C4 witness: on a concrete path without `.git`, both tools exit 1
without spawning any git subprocess. -/
theorem C4_witness :
    (ApplyPatches.process envC4I).2 = 1 ∧
    (∀ args, Eff.git args ∉ (ApplyPatches.process envC4I).1) ∧
    (ExportPatches.main envC4E fsEmpty).2.1 = 1 ∧
    (∀ args, Eff.git args ∉ (ExportPatches.main envC4E fsEmpty).1) := by
  have h := C4_missing_git_dir_fails_fast envC4I envC4E fsEmpty (by decide)
    ⟨"0123456789abcdef", by rfl⟩ rfl rfl
  exact ⟨h.1, h.2.1, h.2.2.2.1, h.2.2.2.2.1⟩

/-- C8: when the patches directory holds no `*.patch` file, a run that
reaches step 4 prints the no-patches message and the done message, and
the whole process exits with status 0 — a non-error outcome. -/
theorem C8_no_patches_zero_exit (env : ApplyPatches.Env) (c : String)
    (hargv : 2 ≤ env.argvLen)
    (hload : ApplyPatches.load_base_commit env.baseCommitFile = Except.ok c)
    (hdir : env.gitDirExists = true)
    (hcat : env.gitExit ["cat-file", "-t", c] = 0)
    (hchk : env.gitExit ["checkout", "-f", c] = 0)
    (hcln : env.gitExit ["clean", "-fdx"] = 0)
    (hbr : env.gitExit ["checkout", "-b", "patched-release"] = 0)
    (hempty : env.patchNames = []) :
    (ApplyPatches.process env).2 = 0 ∧
    Eff.print "  No patches found in patches/ directory." ∈ (ApplyPatches.process env).1 ∧
    Eff.print "Done! (No patches to apply)" ∈ (ApplyPatches.process env).1 := by
  have hm := ApplyPatches.apply_main_happy env c hargv hload hdir hcat hchk hcln hbr
  have hpp : ApplyPatches.patchPaths env = [] := by
    simp [ApplyPatches.patchPaths, pySorted, hempty]
  have hexit : (ApplyPatches.main env).2 = 0 := by
    rw [hm]; simp [ApplyPatches.step4Exit, hpp]
  have hmem : Eff.print "  No patches found in patches/ directory." ∈
        (ApplyPatches.main env).1 ∧
      Eff.print "Done! (No patches to apply)" ∈ (ApplyPatches.main env).1 := by
    rw [hm]
    simp [ApplyPatches.step4Tail, hpp]
  have hp2 : ApplyPatches.process env =
      ((ApplyPatches.main env).1 ++ (ApplyPatches.main env).1,
       (ApplyPatches.main env).2) := by
    unfold ApplyPatches.process
    simp [hexit]
  rw [hp2]
  exact ⟨hexit, List.mem_append_left _ hmem.1, List.mem_append_left _ hmem.2⟩

/-- Concrete instance for C8/C10: valid base commit, all git commands
succeed, empty patches directory. -/
def envC8 : ApplyPatches.Env where
  argvLen := 2
  edenRepo := "/eden"
  patchRepo := "/patchrepo"
  patchesDir := "/patchrepo/patches"
  baseCommitFile := some "0123456789abcdef\n"
  gitDirExists := true
  gitExit := fun _ => 0
  patchNames := []

/-- C8 witness: the empty-patches run on a concrete environment prints
the no-patches message and exits with status 0. -/
theorem C8_witness :
    (ApplyPatches.process envC8).2 = 0 ∧
    Eff.print "  No patches found in patches/ directory." ∈
      (ApplyPatches.process envC8).1 := by
  have h := C8_no_patches_zero_exit envC8 "0123456789abcdef" (by decide) (by rfl)
    rfl rfl rfl rfl rfl rfl
  exact ⟨h.1, h.2.1⟩

/-- C10: every run of the importer's `main` that reaches patch
enumeration has already, in this order, force-checked-out the base
commit, removed untracked/ignored files (`clean -fdx`), attempted
deletion of the `patched-release` branch, and created that branch
fresh — even when the run then finds zero patches and exits with
status 0. -/
theorem C10_mutations_before_enumeration (env : ApplyPatches.Env) (c : String)
    (hargv : 2 ≤ env.argvLen)
    (hload : ApplyPatches.load_base_commit env.baseCommitFile = Except.ok c)
    (hdir : env.gitDirExists = true)
    (hcat : env.gitExit ["cat-file", "-t", c] = 0)
    (hchk : env.gitExit ["checkout", "-f", c] = 0)
    (hcln : env.gitExit ["clean", "-fdx"] = 0)
    (hbr : env.gitExit ["checkout", "-b", "patched-release"] = 0) :
    [Eff.git ["checkout", "-f", c], Eff.git ["clean", "-fdx"],
     Eff.git ["branch", "-D", "patched-release"],
     Eff.git ["checkout", "-b", "patched-release"]].Sublist
      (ApplyPatches.main env).1 ∧
    (env.patchNames = [] → (ApplyPatches.main env).2 = 0) := by
  have hm := ApplyPatches.apply_main_happy env c hargv hload hdir hcat hchk hcln hbr
  constructor
  · rw [hm]
    refine List.Sublist.trans ?_ (List.sublist_append_left _ _)
    simp only [ApplyPatches.happyPrefix]
    exact .cons _ (.cons _ (.cons _ (.cons _ (.cons _ (.cons _ (.cons _ (.cons _
      (.cons _ (.cons₂ _ (.cons _ (.cons₂ _ (.cons _ (.cons₂ _ (.cons _ (.cons₂ _
      (.cons _ List.Sublist.slnil))))))))))))))))
  · intro hempty
    rw [hm]
    have hpp : ApplyPatches.patchPaths env = [] := by
      simp [ApplyPatches.patchPaths, pySorted, hempty]
    simp [ApplyPatches.step4Exit, hpp]

/-- C10 witness: on the concrete zero-patch environment the four
repository-mutating commands all appear, in order, in the trace, and the
run exits with status 0. -/
theorem C10_witness :
    [Eff.git ["checkout", "-f", "0123456789abcdef"], Eff.git ["clean", "-fdx"],
     Eff.git ["branch", "-D", "patched-release"],
     Eff.git ["checkout", "-b", "patched-release"]].Sublist
      (ApplyPatches.main envC8).1 ∧
    (ApplyPatches.main envC8).2 = 0 := by
  have h := C10_mutations_before_enumeration envC8 "0123456789abcdef" (by decide)
    (by rfl) rfl rfl rfl rfl rfl
  exact ⟨h.1, h.2 rfl⟩

/-- C2: with a non-empty set of `*.patch` files, a run reaching step 4
spawns exactly one `git am --3way` batch whose arguments are the patch
files in ascending lexical filename order (the sort is a sorted
permutation of the glob result); no earlier git command is an `am`, and
everything after the batch is prints only. When the batch returns
non-zero the run exits with status 1 after printing the abort-and-reset
hint and the resolve-and-continue hint. -/
theorem C2_single_batch_am_lexical_order (env : ApplyPatches.Env) (c : String)
    (hargv : 2 ≤ env.argvLen)
    (hload : ApplyPatches.load_base_commit env.baseCommitFile = Except.ok c)
    (hdir : env.gitDirExists = true)
    (hcat : env.gitExit ["cat-file", "-t", c] = 0)
    (hchk : env.gitExit ["checkout", "-f", c] = 0)
    (hcln : env.gitExit ["clean", "-fdx"] = 0)
    (hbr : env.gitExit ["checkout", "-b", "patched-release"] = 0)
    (hne : env.patchNames ≠ []) :
    (pySorted env.patchNames).Sorted (fun a b => a ≤ b) ∧
    (pySorted env.patchNames).Perm env.patchNames ∧
    ∃ t₁ t₂, (ApplyPatches.main env).1 = t₁ ++ Eff.git (ApplyPatches.amArgs env) :: t₂ ∧
      (∀ args, Eff.git args ∈ t₁ → args.head? ≠ some "am") ∧
      (∀ e ∈ t₂, ∃ s, e = Eff.print s) ∧
      (env.gitExit (ApplyPatches.amArgs env) ≠ 0 →
        (ApplyPatches.main env).2 = 1 ∧
        (ApplyPatches.process env).2 = 1 ∧
        Eff.print ("To abort and reset: cd " ++ env.edenRepo ++ " && git am --abort") ∈ t₂ ∧
        Eff.print "To resolve manually: fix conflicts, git add, git am --continue" ∈ t₂) := by
  have hm := ApplyPatches.apply_main_happy env c hargv hload hdir hcat hchk hcln hbr
  have hsort : (pySorted env.patchNames).Sorted (fun a b => a ≤ b) :=
    (List.sorted_insertionSort (fun a b : String => a.data ≤ b.data)
      env.patchNames).imp fun h => String.le_iff_toList_le.mpr h
  have hperm : (pySorted env.patchNames).Perm env.patchNames :=
    List.perm_insertionSort (fun a b : String => a.data ≤ b.data) env.patchNames
  have hpne : ¬ ApplyPatches.patchPaths env = [] := by
    simp only [ApplyPatches.patchPaths, List.map_eq_nil_iff]
    intro h0
    apply hne
    have hnil : pySorted env.patchNames = [] := h0
    rw [hnil] at hperm
    exact hperm.symm.eq_nil
  refine ⟨hsort, hperm, ?_⟩
  have ht₁ : ∀ args, Eff.git args ∈ ApplyPatches.happyPrefix env c ++
      [Eff.print ("  Found " ++ toString (ApplyPatches.patchPaths env).length ++
        " patch(es)")] → args.head? ≠ some "am" := by
    intro args h
    simp [ApplyPatches.happyPrefix] at h
    rcases h with rfl | rfl | rfl | rfl | rfl <;> simp
  by_cases ham : env.gitExit (ApplyPatches.amArgs env) = 0
  · refine ⟨ApplyPatches.happyPrefix env c ++
      [Eff.print ("  Found " ++ toString (ApplyPatches.patchPaths env).length ++
        " patch(es)")],
      ApplyPatches.successBanner env.edenRepo, ?_, ht₁, ?_, ?_⟩
    · rw [hm]
      simp [ApplyPatches.step4Tail, hpne, ham]
    · intro e he
      fin_cases he <;> exact ⟨_, rfl⟩
    · intro hcontra
      exact absurd ham hcontra
  · refine ⟨ApplyPatches.happyPrefix env c ++
      [Eff.print ("  Found " ++ toString (ApplyPatches.patchPaths env).length ++
        " patch(es)")],
      ApplyPatches.failBanner env.edenRepo, ?_, ht₁, ?_, ?_⟩
    · rw [hm]
      simp [ApplyPatches.step4Tail, hpne, ham]
    · intro e he
      fin_cases he <;> exact ⟨_, rfl⟩
    · intro _
      have hm2 : (ApplyPatches.main env).2 = 1 := by
        rw [hm]
        simp [ApplyPatches.step4Exit, hpne, ham]
      refine ⟨hm2, ?_, by simp [ApplyPatches.failBanner],
        by simp [ApplyPatches.failBanner]⟩
      unfold ApplyPatches.process
      simp [hm2]

/-- C3: in the exporter's final step, if `git rev-parse` on the upstream
reference fails, a warning is printed and the patch-repository state —
`BASE_COMMIT.txt` in particular — is left exactly as it was, with no
file write in the trace; if it succeeds, `BASE_COMMIT.txt` is
overwritten with the trimmed hash followed by a single newline. -/
theorem C3_update_base_commit_preserves_on_failure (env : ExportPatches.Env)
    (fs : ExportPatches.PatchRepoFS) :
    (env.gitExit ["rev-parse", ExportPatches.upstreamRef] ≠ 0 →
      (ExportPatches.update_base_commit env fs).2 = fs ∧
      Eff.print "  Warning: Could not get upstream commit hash" ∈
        (ExportPatches.update_base_commit env fs).1 ∧
      ∀ p c, Eff.writeFile p c ∉ (ExportPatches.update_base_commit env fs).1) ∧
    (env.gitExit ["rev-parse", ExportPatches.upstreamRef] = 0 →
      (ExportPatches.update_base_commit env fs).2.baseCommit =
        some (pyStrip env.revParseOut ++ "\n") ∧
      Eff.writeFile (env.patchRepo ++ "/BASE_COMMIT.txt")
          (pyStrip env.revParseOut ++ "\n") ∈
        (ExportPatches.update_base_commit env fs).1) := by
  constructor
  · intro h
    refine ⟨?_, ?_, ?_⟩
    · simp [ExportPatches.update_base_commit, ExportPatches.run_git, h]
    · simp [ExportPatches.update_base_commit, ExportPatches.run_git, h]
    · intro p c
      simp [ExportPatches.update_base_commit, ExportPatches.run_git, h]
  · intro h
    constructor
    · simp [ExportPatches.update_base_commit, ExportPatches.run_git, h]
    · simp [ExportPatches.update_base_commit, ExportPatches.run_git, h]

/-- Concrete instance for C3/C6: validation passes, `format-patch`
produces nothing, `rev-parse` resolves to a hash. -/
def envC3ok : ExportPatches.Env where
  edenRepo := "/eden"
  patchRepo := "/patchrepo"
  patchesDir := "/patchrepo/patches"
  gitDirExists := true
  gitExit := fun _ => 0
  revParseOut := "fedcba9876543210\n"
  formatPatchProduces := []
  diffOut := ""

/-- Concrete instance for C3: `rev-parse` fails (exit 128). -/
def envC3fail : ExportPatches.Env where
  edenRepo := "/eden"
  patchRepo := "/patchrepo"
  patchesDir := "/patchrepo/patches"
  gitDirExists := true
  gitExit := fun args => if args.head? = some "rev-parse" then 128 else 0
  revParseOut := ""
  formatPatchProduces := []
  diffOut := ""

/-- A patch-repository state with one stale patch and an old base hash. -/
def fsPrior : ExportPatches.PatchRepoFS where
  patchFiles := ["0001-old.patch"]
  series := some "0001-old.patch\n"
  preview := some "old diff"
  baseCommit := some "0123456789abcdef\n"

/-- C3 witness: on concrete environments, a failed `rev-parse` leaves the
prior state untouched, and a successful one writes the trimmed hash plus
newline. -/
theorem C3_witness :
    (ExportPatches.update_base_commit envC3fail fsPrior).2 = fsPrior ∧
    (ExportPatches.update_base_commit envC3ok fsPrior).2.baseCommit =
      some (pyStrip "fedcba9876543210\n" ++ "\n") := by
  exact ⟨((C3_update_base_commit_preserves_on_failure envC3fail fsPrior).1
      (by decide)).1,
    ((C3_update_base_commit_preserves_on_failure envC3ok fsPrior).2 rfl).1⟩

/-- C5: on every exporter run that reaches patch generation, the trace
decomposes as validation/step-1 prefix, the `mkdir` of the patches
directory, a segment `t₂` containing an unlink of every pre-existing
`*.patch` file, and only then the `git format-patch` invocation; the
final state's patch files are exactly the freshly generated ones, so no
stale patch survives even if fewer patches are produced. -/
theorem C5_stale_patches_removed (env : ExportPatches.Env)
    (fs : ExportPatches.PatchRepoFS)
    (hdir : env.gitDirExists = true)
    (hrem : env.gitExit ["remote", "get-url", ExportPatches.UPSTREAM_REMOTE] = 0)
    (hfp : env.gitExit (ExportPatches.formatPatchArgs env) = 0) :
    (∃ t₂ t₃,
      (ExportPatches.main env fs).1 =
        ExportPatches.preTrace env ++ Eff.mkdir env.patchesDir :: t₂ ++
          Eff.git (ExportPatches.formatPatchArgs env) :: t₃ ∧
      ∀ f ∈ fs.patchFiles, Eff.unlink (env.patchesDir ++ "/" ++ f) ∈ t₂) ∧
    (ExportPatches.main env fs).2.2.patchFiles = env.formatPatchProduces := by
  have hm := ExportPatches.export_main_happy env fs hdir hrem hfp
  constructor
  · refine ⟨ExportPatches.cleanTrace env fs ++
      [Eff.print "[2/5] Generating patches (git format-patch)...",
       Eff.print ("  > " ++ String.intercalate " "
         ("git" :: ExportPatches.formatPatchArgs env))],
      ExportPatches.postTrace env, ?_, ?_⟩
    · rw [hm]
      simp [List.append_assoc]
    · intro f hf
      apply List.mem_append_left
      apply List.mem_append_left
      exact List.mem_flatMap.mpr ⟨f, hf, by simp⟩
  · rw [hm]
    rfl

/-- Concrete environment for C5: one fresh patch generated. -/
def envC5 : ExportPatches.Env where
  edenRepo := "/eden"
  patchRepo := "/patchrepo"
  patchesDir := "/patchrepo/patches"
  gitDirExists := true
  gitExit := fun _ => 0
  revParseOut := "fedcba9876543210\n"
  formatPatchProduces := ["0001-new.patch"]
  diffOut := "diff"

/-- C5 witness: starting from a state holding a stale patch file, the
stale file is unlinked before the `format-patch` invocation and the
final state holds only the freshly generated patch. -/
theorem C5_witness :
    (∃ t₂ t₃,
      (ExportPatches.main envC5 fsPrior).1 =
        ExportPatches.preTrace envC5 ++ Eff.mkdir envC5.patchesDir :: t₂ ++
          Eff.git (ExportPatches.formatPatchArgs envC5) :: t₃ ∧
      Eff.unlink (envC5.patchesDir ++ "/" ++ "0001-old.patch") ∈ t₂) ∧
    (ExportPatches.main envC5 fsPrior).2.2.patchFiles = ["0001-new.patch"] := by
  have h := C5_stale_patches_removed envC5 fsPrior rfl rfl rfl
  obtain ⟨⟨t₂, t₃, htrace, hunlink⟩, hfinal⟩ := h
  exact ⟨⟨t₂, t₃, htrace, hunlink "0001-old.patch" (by decide)⟩, hfinal⟩

/-- C6: running the exporter twice with the external tool returning the
same outputs both times, where those outputs reflect no new commits
(no generated patch file, empty diff) and `rev-parse` resolves, yields an
identical `series` manifest (empty), an identical empty `preview.diff`,
and a `BASE_COMMIT.txt` unchanged between the two runs. -/
theorem C6_export_idempotent (env : ExportPatches.Env)
    (fs : ExportPatches.PatchRepoFS)
    (hdir : env.gitDirExists = true)
    (hrem : env.gitExit ["remote", "get-url", ExportPatches.UPSTREAM_REMOTE] = 0)
    (hfp : env.gitExit (ExportPatches.formatPatchArgs env) = 0)
    (hrp : env.gitExit ["rev-parse", ExportPatches.upstreamRef] = 0)
    (hnone : env.formatPatchProduces = []) (hdiff : env.diffOut = "") :
    ((ExportPatches.main env (ExportPatches.main env fs).2.2).2.2).series =
      ((ExportPatches.main env fs).2.2).series ∧
    ((ExportPatches.main env fs).2.2).series = some "" ∧
    ((ExportPatches.main env (ExportPatches.main env fs).2.2).2.2).preview =
      ((ExportPatches.main env fs).2.2).preview ∧
    ((ExportPatches.main env fs).2.2).preview = some "" ∧
    ((ExportPatches.main env (ExportPatches.main env fs).2.2).2.2).baseCommit =
      ((ExportPatches.main env fs).2.2).baseCommit := by
  have hfs1 : (ExportPatches.main env fs).2.2 = ExportPatches.finalFS env fs := by
    rw [ExportPatches.export_main_happy env fs hdir hrem hfp]
  have hfs2 : (ExportPatches.main env (ExportPatches.finalFS env fs)).2.2 =
      ExportPatches.finalFS env (ExportPatches.finalFS env fs) := by
    rw [ExportPatches.export_main_happy env _ hdir hrem hfp]
  rw [hfs1, hfs2]
  simp [ExportPatches.finalFS, ExportPatches.seriesContents, hnone, hdiff, hrp,
    pySorted, String.join]

/-- C6 witness: on the concrete no-new-commits environment, both runs
agree on `series` (empty), `preview.diff` (empty) and `BASE_COMMIT.txt`. -/
theorem C6_witness :
    ((ExportPatches.main envC3ok (ExportPatches.main envC3ok fsPrior).2.2).2.2).series =
      ((ExportPatches.main envC3ok fsPrior).2.2).series ∧
    ((ExportPatches.main envC3ok fsPrior).2.2).series = some "" ∧
    ((ExportPatches.main envC3ok fsPrior).2.2).preview = some "" ∧
    ((ExportPatches.main envC3ok (ExportPatches.main envC3ok fsPrior).2.2).2.2).baseCommit =
      ((ExportPatches.main envC3ok fsPrior).2.2).baseCommit := by
  have h := C6_export_idempotent envC3ok fsPrior rfl rfl rfl rfl rfl rfl
  exact ⟨h.1, h.2.1, h.2.2.2.1, h.2.2.2.2⟩

/-- Concrete instance for C7: `git checkout -f` exits with code 2, every
other command succeeds. -/
def envC7 : ApplyPatches.Env where
  argvLen := 2
  edenRepo := "/eden"
  patchRepo := "/patchrepo"
  patchesDir := "/patchrepo/patches"
  baseCommitFile := some "0123456789abcdef\n"
  gitDirExists := true
  gitExit := fun args => if args.head? = some "checkout" then 2 else 0
  patchNames := []

/-- C7 counterexample: when a checked git command exits with code 2, the
process terminates with exit status 1, not with the command's own exit
code — refuting the claim that the whole process terminates "with that
same exit code". -/
theorem C7_counterexample :
    envC7.gitExit ["checkout", "-f", "0123456789abcdef"] = 2 ∧
    (ApplyPatches.process envC7).2 = 1 ∧
    ¬ (ApplyPatches.process envC7).2 = 2 := by
  refine ⟨by decide, by decide, by decide⟩

/-- C7 (amended): for every git command run by either script's command
runner with the fatal (check) option enabled, a non-zero exit code of
the command terminates the whole process with exit status 1, after
printing a diagnostic message that names the command's exit code. -/
theorem C7_check_failure_exits_one (gitExit : List String → Nat)
    (args : List String) (h : gitExit args ≠ 0) :
    (ApplyPatches.run_git gitExit args true).2.2 = some 1 ∧
    Eff.print ("Command failed with exit code " ++ toString (gitExit args)) ∈
      (ApplyPatches.run_git gitExit args true).1 ∧
    (ExportPatches.run_git gitExit args true).2.2 = some 1 ∧
    Eff.print ("Command failed with exit code " ++ toString (gitExit args)) ∈
      (ExportPatches.run_git gitExit args true).1 := by
  refine ⟨?_, ?_, ?_, ?_⟩ <;>
    simp [ApplyPatches.run_git, ExportPatches.run_git, h]

/-- C7 witness: a command exiting 2 under the fatal option makes the
runner exit the process with status 1 and print the diagnostic. -/
theorem C7_witness :
    (ApplyPatches.run_git (fun _ => 2) ["fetch"] true).2.2 = some 1 ∧
    Eff.print ("Command failed with exit code " ++ toString 2) ∈
      (ApplyPatches.run_git (fun _ => 2) ["fetch"] true).1 := by
  have h := C7_check_failure_exits_one (fun _ => 2) ["fetch"] (by decide)
  exact ⟨h.1, h.2.1⟩

/-- Stripping is unaffected by one trailing newline. -/
theorem pyStripList_append_newline (l : List Char) :
    pyStripList (l ++ ['\n']) = pyStripList l := by
  unfold pyStripList
  rw [List.dropWhile_append]
  by_cases h : l.dropWhile Char.isWhitespace = []
  · simp [h, List.dropWhile]
  · have h' : (l.dropWhile Char.isWhitespace).isEmpty = false := by
      simpa [List.isEmpty_iff] using h
    rw [h']
    simp only [Bool.false_eq_true, if_false, List.reverse_append]
    simp [List.dropWhile_cons]

/-- Same statement at the `String` level. -/
theorem pyStrip_append_newline (h : String) :
    pyStrip (h ++ "\n") = pyStrip h := by
  unfold pyStrip
  have hdata : (h ++ "\n").data = h.data ++ ['\n'] := by
    simp [String.data_append]
  rw [hdata, pyStripList_append_newline]

/-- C9: round-trip of the base-commit file. For every hash string `h`
without leading or trailing whitespace: whenever the exporter's update
step succeeds with `h` as the captured `rev-parse` output it writes
`h ++ "\n"` to `BASE_COMMIT.txt` unconditionally — no length or format
validation — and the importer's loader applied to that file contents
returns exactly `h` when `h` has at least 7 characters and fails fatally
when it is shorter. -/
theorem C9_base_commit_roundtrip (h : String) (hs : pyStrip h = h) :
    (∀ env : ExportPatches.Env, ∀ fs : ExportPatches.PatchRepoFS,
      env.gitExit ["rev-parse", ExportPatches.upstreamRef] = 0 →
      env.revParseOut = h →
      (ExportPatches.update_base_commit env fs).2.baseCommit = some (h ++ "\n")) ∧
    (7 ≤ h.length → ApplyPatches.load_base_commit (some (h ++ "\n")) = Except.ok h) ∧
    (h.length < 7 →
      ∃ msg, ApplyPatches.load_base_commit (some (h ++ "\n")) = Except.error msg) := by
  have hstrip : pyStrip (h ++ "\n") = h := by rw [pyStrip_append_newline, hs]
  refine ⟨?_, ?_, ?_⟩
  · intro env fs hrp hout
    simp [ExportPatches.update_base_commit, ExportPatches.run_git, hrp, hout, hs]
  · intro hlen
    simp only [ApplyPatches.load_base_commit, hstrip]
    rw [if_neg]
    push_neg
    constructor
    · intro hnil
      rw [hnil] at hlen
      simp at hlen
    · omega
  · intro hlen
    refine ⟨"Error: BASE_COMMIT.txt is empty or invalid!", ?_⟩
    simp only [ApplyPatches.load_base_commit, hstrip]
    rw [if_pos (Or.inr hlen)]

/-- Concrete instance for C9: `rev-parse` output without a trailing
newline (already trimmed). -/
def envC9 : ExportPatches.Env :=
  { envC3ok with revParseOut := "fedcba9876543210" }

/-- C9 witness: a 16-character hash round-trips exactly; a 6-character
one is rejected by the loader. -/
theorem C9_witness :
    ApplyPatches.load_base_commit (some ("0123456789abcdef" ++ "\n")) =
      Except.ok "0123456789abcdef" ∧
    (∃ msg, ApplyPatches.load_base_commit (some ("abc123" ++ "\n")) =
      Except.error msg) ∧
    (ExportPatches.update_base_commit envC9 fsPrior).2.baseCommit =
      some ("fedcba9876543210" ++ "\n") := by
  refine ⟨(C9_base_commit_roundtrip "0123456789abcdef" (by rfl)).2.1 (by decide),
    (C9_base_commit_roundtrip "abc123" (by rfl)).2.2 (by decide),
    (C9_base_commit_roundtrip "fedcba9876543210" (by rfl)).1 envC9 fsPrior rfl rfl⟩

/-- Concrete instance for C2: three patch files (glob order unsorted),
every git command succeeds except the `am` batch, which fails. -/
def envC2 : ApplyPatches.Env where
  argvLen := 2
  edenRepo := "/eden"
  patchRepo := "/patchrepo"
  patchesDir := "/patchrepo/patches"
  baseCommitFile := some "0123456789abcdef\n"
  gitDirExists := true
  gitExit := fun args => if args.head? = some "am" then 1 else 0
  patchNames := ["0002-b.patch", "0001-a.patch", "0003-c.patch"]

/-- C2 witness: the three scenario patches are passed to one
`git am --3way` batch in exact lexical order; the batch fails, the run
exits 1, and both hints are printed. -/
theorem C2_witness :
    ApplyPatches.amArgs envC2 =
      ["am", "--3way", "/patchrepo/patches/0001-a.patch",
       "/patchrepo/patches/0002-b.patch", "/patchrepo/patches/0003-c.patch"] ∧
    (ApplyPatches.main envC2).2 = 1 ∧
    Eff.print ("To abort and reset: cd " ++ "/eden" ++ " && git am --abort") ∈
      (ApplyPatches.main envC2).1 ∧
    Eff.print "To resolve manually: fix conflicts, git add, git am --continue" ∈
      (ApplyPatches.main envC2).1 := by
  have h := C2_single_batch_am_lexical_order envC2 "0123456789abcdef" (by decide)
    (by rfl) rfl (by rfl) (by rfl) (by rfl) (by rfl) (by decide)
  obtain ⟨-, -, t₁, t₂, htrace, -, -, hfail⟩ := h
  have ham : envC2.gitExit (ApplyPatches.amArgs envC2) ≠ 0 := by decide
  obtain ⟨hexit, -, h1, h2⟩ := hfail ham
  refine ⟨by rfl, hexit, ?_, ?_⟩
  · rw [htrace]
    exact List.mem_append_right _ (List.mem_cons_of_mem _ h1)
  · rw [htrace]
    exact List.mem_append_right _ (List.mem_cons_of_mem _ h2)
